import Mathlib

/-!
# Cloud provider config asset (`pkg/asset/manifests/cloudproviderconfig.go`)

A shallow embedding of the `CloudProviderConfig` asset node: its `Generate`,
`Files` and `Load` operations and the three ARO manifest builders `aroRole`,
`aroRoleBinding` and `aroSecret`.

Modelling conventions.

* The receiver `cpc *CloudProviderConfig` is passed explicitly; `Generate`
  returns the error (`none` is Go's `nil`), the receiver afterwards and the
  list of calls it made to its external collaborators, in call order.
* Everything the file imports but does not define (the azure session lookup,
  the azure config builder `JSON()`, `yaml.Marshal`, `filepath.Join`,
  `manifestDir`, `ClusterResourceGroupName`, the azure platform name and two
  Kubernetes constants) is a field of `Externals`, so every theorem holds for
  all behaviours of those collaborators.
* Pointers that `Generate` dereferences unconditionally on the path it takes
  (`installConfig.Config`, `installConfig.Config.Azure`, `platformCreds.Azure`)
  are modelled as plain values; a nil there is a Go panic, outside this model.
* A Go `map[string]T` is an association list with `mapSet` for `m[k] = v`;
  `[]byte` is `List UInt8`; a nil slice and an empty slice are both `[]`.
-/

set_option autoImplicit false

namespace manifests

/-! ## Errors (`github.com/pkg/errors`) -/

/-- Go error values: `errors.New`, `errors.Wrap`, and errors produced by the
external collaborators. -/
inductive Error where
  | New (message : String)
  | Wrap (cause : Error) (message : String)
  | External (message : String)
  deriving DecidableEq, Repr

abbrev Bytes := List UInt8

/-! ## Kubernetes object types (the fields this file sets) -/

structure TypeMeta where
  Kind : String
  APIVersion : String
  deriving DecidableEq, Repr

structure ObjectMeta where
  Name : String
  Namespace : String
  deriving DecidableEq, Repr

structure ConfigMap where
  TypeMeta : TypeMeta
  ObjectMeta : ObjectMeta
  Data : List (String × String)
  deriving DecidableEq, Repr

structure PolicyRule where
  Verbs : List String
  APIGroups : List String
  Resources : List String
  ResourceNames : List String
  deriving DecidableEq, Repr

structure Role where
  TypeMeta : TypeMeta
  ObjectMeta : ObjectMeta
  Rules : List PolicyRule
  deriving DecidableEq, Repr

structure Subject where
  Kind : String
  Name : String
  Namespace : String
  deriving DecidableEq, Repr

structure RoleRef where
  APIGroup : String
  Kind : String
  Name : String
  deriving DecidableEq, Repr

structure RoleBinding where
  TypeMeta : TypeMeta
  ObjectMeta : ObjectMeta
  Subjects : List Subject
  RoleRef : RoleRef
  deriving DecidableEq, Repr

structure Secret where
  TypeMeta : TypeMeta
  ObjectMeta : ObjectMeta
  Data : List (String × Bytes)
  /-- The field `Type` (a Lean keyword). -/
  Type_ : String
  deriving DecidableEq, Repr

/-- The anonymous struct `config` of `aroSecret`, with yaml keys `aadClientId`
and `aadClientSecret`. -/
structure AroSecretConfig where
  AADClientID : String
  AADClientSecret : String
  deriving DecidableEq, Repr

/-- The values this file passes to `yaml.Marshal`. -/
inductive Object where
  | ConfigMap (cm : ConfigMap)
  | Role (r : Role)
  | RoleBinding (rb : RoleBinding)
  | Secret (s : Secret)
  | AroSecretConfig (c : AroSecretConfig)
  deriving DecidableEq, Repr

/-! ## Resolved inputs -/

/-- The fields of `azuretypes.Platform` read by `Generate`. -/
structure AzurePlatform where
  CloudName : String
  Region : String
  NetworkResourceGroupName : String
  VirtualNetwork : String
  ComputeSubnet : String
  ARO : Bool
  deriving DecidableEq, Repr

/-- The install configuration `installConfig.Config`: `PlatformName` is the
value of `Platform.Name()`, `Azure` the target of the `Azure` pointer. -/
structure InstallConfigData where
  PlatformName : String
  Azure : AzurePlatform
  deriving DecidableEq, Repr

structure InstallConfig where
  Config : InstallConfigData
  deriving DecidableEq, Repr

structure AzureCredentials where
  ClientID : String
  ClientSecret : String
  deriving DecidableEq, Repr

structure PlatformCreds where
  Azure : AzureCredentials
  deriving DecidableEq, Repr

structure ClusterID where
  InfraID : String
  deriving DecidableEq, Repr

/-- The three parents `Generate` fetches with `dependencies.Get`. -/
structure Parents where
  platformCreds : PlatformCreds
  installConfig : InstallConfig
  clusterID : ClusterID
  deriving DecidableEq, Repr

structure SessionCredentials where
  SubscriptionID : String
  TenantID : String
  deriving DecidableEq, Repr

structure Session where
  Credentials : SessionCredentials
  deriving DecidableEq, Repr

/-- The record `azure.CloudProviderConfig` handed to the builder `JSON()`. -/
structure AzureCloudProviderConfig where
  CloudName : String
  ResourceGroupName : String
  GroupLocation : String
  ResourcePrefix : String
  SubscriptionID : String
  TenantID : String
  NetworkResourceGroupName : String
  NetworkSecurityGroupName : String
  VirtualNetworkName : String
  SubnetName : String
  ARO : Bool
  deriving DecidableEq, Repr

/-! ## External collaborators -/

/-- Everything `cloudproviderconfig.go` uses but does not define. -/
structure Externals where
  /-- The package constant `manifestDir`. -/
  manifestDir : String
  /-- The function `filepath.Join`, at two arguments. -/
  filepathJoin : String → String → String
  /-- The constant `azuretypes.Name`. -/
  azureName : String
  /-- The value of `corev1.SchemeGroupVersion.String()`. -/
  corev1GroupVersion : String
  /-- The constant `v1.SecretTypeOpaque`. -/
  secretTypeOpaque : String
  /-- The method `installConfig.Azure.Session()`. -/
  Session : InstallConfig → Except Error Session
  /-- The method `azuretypes.Platform.ClusterResourceGroupName`. -/
  ClusterResourceGroupName : AzurePlatform → String → String
  /-- The builder `azure.CloudProviderConfig.JSON()`. -/
  JSON : AzureCloudProviderConfig → Except Error String
  /-- The function `yaml.Marshal`. -/
  yamlMarshal : Object → Except Error Bytes

/-- A call made to an external collaborator. -/
inductive Call where
  | Session (installConfig : InstallConfig)
  | JSON (config : AzureCloudProviderConfig)
  | Marshal (o : Object)
  deriving DecidableEq, Repr

/-! ## The asset node -/

structure File where
  Filename : String
  Data : Bytes
  deriving DecidableEq, Repr

/-- The struct `CloudProviderConfig`. -/
structure CloudProviderConfig where
  ConfigMap : Option ConfigMap
  FileList : List File
  deriving DecidableEq, Repr

/-- The zero value `&CloudProviderConfig{}`. -/
def CloudProviderConfig.fresh : CloudProviderConfig :=
  { ConfigMap := none, FileList := [] }

def cloudProviderConfigFileName (env : Externals) : String :=
  env.filepathJoin env.manifestDir "cloud-provider-config.yaml"

def aroCloudProviderRoleFileName (env : Externals) : String :=
  env.filepathJoin env.manifestDir "aro-cloud-provider-secret-reader-role.yaml"

def aroCloudProviderRoleBindingFileName (env : Externals) : String :=
  env.filepathJoin env.manifestDir "aro-cloud-provider-secret-reader-rolebinding.yaml"

def aroCloudProviderSecretFileName (env : Externals) : String :=
  env.filepathJoin env.manifestDir "aro-cloud-provider-secret.yaml"

def cloudProviderConfigDataKey : String := "config"

/-- The method `Name`. -/
def CloudProviderConfig.Name : String := "Cloud Provider Config"

/-- Go map assignment `m[k] = v` on an association list. -/
def mapSet {β : Type} (m : List (String × β)) (k : String) (v : β) : List (String × β) :=
  match m with
  | [] => [(k, v)]
  | (k0, v0) :: rest => if k0 = k then (k, v) :: rest else (k0, v0) :: mapSet rest k v

/-- The Role literal marshalled by `aroRole`. -/
def aroRoleObject : Role :=
  { TypeMeta := { Kind := "Role", APIVersion := "rbac.authorization.k8s.io/v1" }
    ObjectMeta := { Name := "aro-cloud-provider-secret-reader", Namespace := "kube-system" }
    Rules := [{ Verbs := ["get"], APIGroups := [""], Resources := ["secrets"],
                ResourceNames := ["azure-cloud-provider"] }] }

/-- The function `aroRole`: the marshalled Role and the calls made. -/
def aroRole (env : Externals) (_platformCreds : PlatformCreds) :
    Except Error Bytes × List Call :=
  (env.yamlMarshal (Object.Role aroRoleObject), [Call.Marshal (Object.Role aroRoleObject)])

/-- The RoleBinding literal marshalled by `aroRoleBinding`. -/
def aroRoleBindingObject : RoleBinding :=
  { TypeMeta := { Kind := "RoleBinding", APIVersion := "rbac.authorization.k8s.io/v1" }
    ObjectMeta := { Name := "aro-cloud-provider-secret-read", Namespace := "kube-system" }
    Subjects := [{ Kind := "ServiceAccount", Name := "azure-cloud-provider",
                   Namespace := "kube-system" }]
    RoleRef := { APIGroup := "rbac.authorization.k8s.io", Kind := "Role",
                 Name := "aro-cloud-provider-secret-reader" } }

/-- The function `aroRoleBinding`. -/
def aroRoleBinding (env : Externals) (_platformCreds : PlatformCreds) :
    Except Error Bytes × List Call :=
  (env.yamlMarshal (Object.RoleBinding aroRoleBindingObject),
    [Call.Marshal (Object.RoleBinding aroRoleBindingObject)])

/-- The inner record `config` of `aroSecret`. -/
def aroSecretConfig (platformCreds : PlatformCreds) : AroSecretConfig :=
  { AADClientID := platformCreds.Azure.ClientID
    AADClientSecret := platformCreds.Azure.ClientSecret }

/-- The Secret literal marshalled by `aroSecret`, given the inner bytes `b`. -/
def aroSecretObject (env : Externals) (b : Bytes) : Secret :=
  { TypeMeta := { Kind := "Secret", APIVersion := env.corev1GroupVersion }
    ObjectMeta := { Name := "azure-cloud-provider", Namespace := "kube-system" }
    Data := mapSet [] "cloud-config" b
    Type_ := env.secretTypeOpaque }

/-- The function `aroSecret`: marshal the inner record, embed its bytes under
`cloud-config`, marshal the Secret. -/
def aroSecret (env : Externals) (platformCreds : PlatformCreds) :
    Except Error Bytes × List Call :=
  let config := aroSecretConfig platformCreds
  match env.yamlMarshal (Object.AroSecretConfig config) with
  | .error err => (.error err, [Call.Marshal (Object.AroSecretConfig config)])
  | .ok b =>
    (env.yamlMarshal (Object.Secret (aroSecretObject env b)),
      [Call.Marshal (Object.AroSecretConfig config),
       Call.Marshal (Object.Secret (aroSecretObject env b))])

/-- What `Generate` leaves behind: the returned error, the receiver, and the
external calls made so far. -/
structure GenerateResult where
  err : Option Error
  cpc : CloudProviderConfig
  calls : List Call
  deriving DecidableEq, Repr

/-- The empty config map built at the top of `Generate`. -/
def emptyConfigMap (env : Externals) : ConfigMap :=
  { TypeMeta := { APIVersion := env.corev1GroupVersion, Kind := "ConfigMap" }
    ObjectMeta := { Namespace := "openshift-config", Name := "cloud-provider-config" }
    Data := [] }

/-- The assignment `cm.Data[cloudProviderConfigDataKey] = azureConfig`. -/
def setConfig (cm : ConfigMap) (azureConfig : String) : ConfigMap :=
  { cm with Data := mapSet cm.Data cloudProviderConfigDataKey azureConfig }

/-- The record built in the azure case of `Generate` (override-or-derive). -/
def azureConfigOf (env : Externals) (installConfig : InstallConfig) (clusterID : ClusterID)
    (session : Session) : AzureCloudProviderConfig :=
  let nsg := clusterID.InfraID ++ "-nsg"
  let nrg := env.ClusterResourceGroupName installConfig.Config.Azure clusterID.InfraID
  let nrg := if installConfig.Config.Azure.NetworkResourceGroupName ≠ "" then
    installConfig.Config.Azure.NetworkResourceGroupName else nrg
  let vnet := clusterID.InfraID ++ "-vnet"
  let vnet := if installConfig.Config.Azure.VirtualNetwork ≠ "" then
    installConfig.Config.Azure.VirtualNetwork else vnet
  let subnet := clusterID.InfraID ++ "-worker-subnet"
  let subnet := if installConfig.Config.Azure.ComputeSubnet ≠ "" then
    installConfig.Config.Azure.ComputeSubnet else subnet
  { CloudName := installConfig.Config.Azure.CloudName
    ResourceGroupName := env.ClusterResourceGroupName installConfig.Config.Azure clusterID.InfraID
    GroupLocation := installConfig.Config.Azure.Region
    ResourcePrefix := clusterID.InfraID
    SubscriptionID := session.Credentials.SubscriptionID
    TenantID := session.Credentials.TenantID
    NetworkResourceGroupName := nrg
    NetworkSecurityGroupName := nsg
    VirtualNetworkName := vnet
    SubnetName := subnet
    ARO := installConfig.Config.Azure.ARO }

/-- The table the ARO loop of `Generate` ranges over. -/
def aroManifests (env : Externals) :
    List (String × (Externals → PlatformCreds → Except Error Bytes × List Call)) :=
  [(aroCloudProviderRoleFileName env, aroRole),
   (aroCloudProviderRoleBindingFileName env, aroRoleBinding),
   (aroCloudProviderSecretFileName env, aroSecret)]

/-- The `for _, f := range ...` loop of `Generate`: each item is built and
appended to `cpc.FileList`; the first failure returns at once. -/
def aroLoop (env : Externals) (platformCreds : PlatformCreds) :
    List (String × (Externals → PlatformCreds → Except Error Bytes × List Call)) →
    CloudProviderConfig → List Call → GenerateResult
  | [], cpc, calls => { err := none, cpc := cpc, calls := calls }
  | (filename, data) :: rest, cpc, calls =>
    let made := (data env platformCreds).2
    match (data env platformCreds).1 with
    | .error err =>
      { err := some (Error.Wrap err
          ("failed to create " ++ CloudProviderConfig.Name ++ " manifest"))
        cpc := cpc, calls := calls ++ made }
    | .ok b =>
      aroLoop env platformCreds rest
        { cpc with FileList := cpc.FileList ++ [{ Filename := filename, Data := b }] }
        (calls ++ made)

/-- The method `Generate`. -/
def Generate (env : Externals) (cpc : CloudProviderConfig) (dependencies : Parents) :
    GenerateResult :=
  let platformCreds := dependencies.platformCreds
  let installConfig := dependencies.installConfig
  let clusterID := dependencies.clusterID
  let cm := emptyConfigMap env
  if installConfig.Config.PlatformName = env.azureName then
    match env.Session installConfig with
    | .error err =>
      { err := some (Error.Wrap err "could not get azure session")
        cpc := cpc, calls := [Call.Session installConfig] }
    | .ok session =>
      let config := azureConfigOf env installConfig clusterID session
      match env.JSON config with
      | .error err =>
        { err := some (Error.Wrap err "could not create cloud provider config")
          cpc := cpc, calls := [Call.Session installConfig, Call.JSON config] }
      | .ok azureConfig =>
        let cm := setConfig cm azureConfig
        let calls := [Call.Session installConfig, Call.JSON config,
          Call.Marshal (Object.ConfigMap cm)]
        match env.yamlMarshal (Object.ConfigMap cm) with
        | .error err =>
          { err := some (Error.Wrap err
              ("failed to create " ++ CloudProviderConfig.Name ++ " manifest"))
            cpc := cpc, calls := calls }
        | .ok cmData =>
          let cpc := { cpc with ConfigMap := some cm }
          let cpc := { cpc with
            FileList := [{ Filename := cloudProviderConfigFileName env, Data := cmData }] }
          if installConfig.Config.Azure.ARO then
            aroLoop env platformCreds (aroManifests env) cpc calls
          else
            { err := none, cpc := cpc, calls := calls }
  else
    { err := some (Error.New "invalid Platform"), cpc := cpc, calls := [] }

/-- The method `Files`. -/
def Files (cpc : CloudProviderConfig) : List File :=
  cpc.FileList

/-- The capability `asset.FileFetcher`. -/
structure FileFetcher where
  FetchByName : String → Option File
  FetchByPattern : String → Except Error (List File)

/-- The method `Load`: the found flag, the error, and the receiver afterwards. -/
def Load (cpc : CloudProviderConfig) (_f : FileFetcher) :
    (Bool × Option Error) × CloudProviderConfig :=
  ((false, none), cpc)

/-! ## Concrete collaborators used for the worked examples -/

/-- A serializer that never fails. -/
def exampleMarshal : Object → Except Error Bytes
  | Object.ConfigMap _ => .ok [1]
  | Object.Role _ => .ok [2]
  | Object.RoleBinding _ => .ok [3]
  | Object.Secret _ => .ok [4]
  | Object.AroSecretConfig _ => .ok [5]

def exampleEnv : Externals :=
  { manifestDir := "manifests"
    filepathJoin := fun d f => d ++ "/" ++ f
    azureName := "azure"
    corev1GroupVersion := "v1"
    secretTypeOpaque := "Opaque"
    Session := fun _ => .ok { Credentials := { SubscriptionID := "sub", TenantID := "tenant" } }
    ClusterResourceGroupName := fun _ infraID => infraID ++ "-rg"
    JSON := fun _ => .ok "blob"
    yamlMarshal := exampleMarshal }

def exampleAzure (aro : Bool) : AzurePlatform :=
  { CloudName := "AzurePublicCloud", Region := "eastus", NetworkResourceGroupName := "",
    VirtualNetwork := "", ComputeSubnet := "", ARO := aro }

def exampleParents (aro : Bool) : Parents :=
  { platformCreds := { Azure := { ClientID := "id", ClientSecret := "pw" } }
    installConfig := { Config := { PlatformName := "azure", Azure := exampleAzure aro } }
    clusterID := { InfraID := "abc123" } }

/-- An install configuration for another platform. -/
def exampleOtherPlatform : Parents :=
  { exampleParents true with
    installConfig := { Config := { PlatformName := "aws", Azure := exampleAzure true } } }

/-- A serializer that rejects the Role and accepts everything else. -/
def roleFailingMarshal : Object → Except Error Bytes
  | Object.Role _ => .error (Error.External "cannot marshal")
  | o => exampleMarshal o

def roleFailingEnv : Externals :=
  { exampleEnv with yamlMarshal := roleFailingMarshal }

/-- A builder that always fails. -/
def builderFailingEnv : Externals :=
  { exampleEnv with JSON := fun _ => .error (Error.External "cannot build") }

/-- The managed-mode example input with other credentials. -/
def exampleParentsOtherCreds : Parents :=
  { exampleParents true with
    platformCreds := { Azure := { ClientID := "id2", ClientSecret := "pw2" } } }

/-! ### A reversible serializer

A small total codec for the Secret and its inner record: a value is flattened
to a list of numbers (strings and byte strings length-prefixed), and each
number `n` is written as `n` bytes `1` followed by a byte `0`. -/

def encNat (n : Nat) : Bytes := List.replicate n 1 ++ [0]

def encNats : List Nat → Bytes
  | [] => []
  | n :: ns => encNat n ++ encNats ns

def decNats : Bytes → Nat → List Nat
  | [], _ => []
  | b :: bs, acc => if b = 0 then acc :: decNats bs 0 else decNats bs (acc + 1)

def encString (s : String) : List Nat := s.data.length :: s.data.map Char.toNat

def encBytes (b : Bytes) : List Nat := b.length :: b.map UInt8.toNat

def encEntries : List (String × Bytes) → List Nat
  | [] => []
  | (k, v) :: es => encString k ++ (encBytes v ++ encEntries es)

def encConfig (c : AroSecretConfig) : List Nat :=
  encString c.AADClientID ++ encString c.AADClientSecret

def encSecret (s : Secret) : List Nat :=
  encString s.TypeMeta.Kind ++ (encString s.TypeMeta.APIVersion ++
    (encString s.ObjectMeta.Name ++ (encString s.ObjectMeta.Namespace ++
      (s.Data.length :: (encEntries s.Data ++ encString s.Type_)))))

def takeString : List Nat → Option (String × List Nat)
  | [] => none
  | n :: rest =>
    if n ≤ rest.length then some (String.mk ((rest.take n).map Char.ofNat), rest.drop n)
    else none

def takeBytes : List Nat → Option (Bytes × List Nat)
  | [] => none
  | n :: rest =>
    if n ≤ rest.length then some ((rest.take n).map UInt8.ofNat, rest.drop n) else none

def takeEntries : Nat → List Nat → Option (List (String × Bytes) × List Nat)
  | 0, ts => some ([], ts)
  | n + 1, ts =>
    match takeString ts with
    | none => none
    | some (k, ts) =>
      match takeBytes ts with
      | none => none
      | some (v, ts) =>
        match takeEntries n ts with
        | none => none
        | some (es, ts) => some ((k, v) :: es, ts)

def takeConfig (ts : List Nat) : Option (AroSecretConfig × List Nat) :=
  match takeString ts with
  | none => none
  | some (id, ts) =>
    match takeString ts with
    | none => none
    | some (secret, ts) => some ({ AADClientID := id, AADClientSecret := secret }, ts)

def takeSecret (ts : List Nat) : Option (Secret × List Nat) :=
  match takeString ts with
  | none => none
  | some (kind, ts) =>
    match takeString ts with
    | none => none
    | some (apiVersion, ts) =>
      match takeString ts with
      | none => none
      | some (name, ts) =>
        match takeString ts with
        | none => none
        | some (ns, ts) =>
          match ts with
          | [] => none
          | n :: ts =>
            match takeEntries n ts with
            | none => none
            | some (data, ts) =>
              match takeString ts with
              | none => none
              | some (type, ts) =>
                some ({ TypeMeta := { Kind := kind, APIVersion := apiVersion }
                        ObjectMeta := { Name := name, Namespace := ns }
                        Data := data, Type_ := type }, ts)

def decodeConfig (b : Bytes) : Option AroSecretConfig :=
  (takeConfig (decNats b 0)).map Prod.fst

def decodeSecret (b : Bytes) : Option Secret :=
  (takeSecret (decNats b 0)).map Prod.fst

/-- A serializer that never fails and can be decoded. -/
def codecMarshal : Object → Except Error Bytes
  | Object.Secret s => .ok (encNats (encSecret s))
  | Object.AroSecretConfig c => .ok (encNats (encConfig c))
  | o => exampleMarshal o

def codecEnv : Externals :=
  { exampleEnv with yamlMarshal := codecMarshal }

/-! ## Shared lemmas -/

theorem generate_of_not_azure (env : Externals) (cpc : CloudProviderConfig) (deps : Parents)
    (h : deps.installConfig.Config.PlatformName ≠ env.azureName) :
    Generate env cpc deps =
      { err := some (Error.New "invalid Platform"), cpc := cpc, calls := [] } := by
  simp [Generate, h]

theorem generate_of_marshalled (env : Externals) (cpc : CloudProviderConfig) (deps : Parents)
    (session : Session) (azureConfig : String) (cmData : Bytes)
    (hplat : deps.installConfig.Config.PlatformName = env.azureName)
    (hsess : env.Session deps.installConfig = .ok session)
    (hjson : env.JSON (azureConfigOf env deps.installConfig deps.clusterID session)
      = .ok azureConfig)
    (hcm : env.yamlMarshal (Object.ConfigMap (setConfig (emptyConfigMap env) azureConfig))
      = .ok cmData) :
    Generate env cpc deps =
      if deps.installConfig.Config.Azure.ARO then
        aroLoop env deps.platformCreds (aroManifests env)
          { ConfigMap := some (setConfig (emptyConfigMap env) azureConfig)
            FileList := [{ Filename := cloudProviderConfigFileName env, Data := cmData }] }
          [Call.Session deps.installConfig,
           Call.JSON (azureConfigOf env deps.installConfig deps.clusterID session),
           Call.Marshal (Object.ConfigMap (setConfig (emptyConfigMap env) azureConfig))]
      else
        { err := none
          cpc :=
            { ConfigMap := some (setConfig (emptyConfigMap env) azureConfig)
              FileList := [{ Filename := cloudProviderConfigFileName env, Data := cmData }] }
          calls :=
            [Call.Session deps.installConfig,
             Call.JSON (azureConfigOf env deps.installConfig deps.clusterID session),
             Call.Marshal (Object.ConfigMap (setConfig (emptyConfigMap env) azureConfig))] } := by
  simp [Generate, hplat, hsess, hjson, hcm]

theorem aroLoop_aroManifests_ok (env : Externals) (creds : PlatformCreds)
    (cpc : CloudProviderConfig) (calls : List Call) (roleData bindingData secretData : Bytes)
    (hrole : (aroRole env creds).1 = .ok roleData)
    (hbinding : (aroRoleBinding env creds).1 = .ok bindingData)
    (hsecret : (aroSecret env creds).1 = .ok secretData) :
    aroLoop env creds (aroManifests env) cpc calls =
      { err := none
        cpc := { cpc with FileList := cpc.FileList ++
          [{ Filename := aroCloudProviderRoleFileName env, Data := roleData },
           { Filename := aroCloudProviderRoleBindingFileName env, Data := bindingData },
           { Filename := aroCloudProviderSecretFileName env, Data := secretData }] }
        calls := calls ++ (aroRole env creds).2 ++ (aroRoleBinding env creds).2
          ++ (aroSecret env creds).2 } := by
  simp [aroLoop, aroManifests, hrole, hbinding, hsecret]

theorem aroLoop_json_mem (env : Externals) (creds : PlatformCreds)
    (cpc : CloudProviderConfig) (calls : List Call) (c : AzureCloudProviderConfig) :
    Call.JSON c ∈ (aroLoop env creds (aroManifests env) cpc calls).calls ↔
      Call.JSON c ∈ calls := by
  have hsec : ∀ x, x ∈ (aroSecret env creds).2 → x ≠ Call.JSON c := by
    intro x hx
    simp only [aroSecret] at hx
    cases hm : env.yamlMarshal (Object.AroSecretConfig (aroSecretConfig creds)) <;>
      rw [hm] at hx <;> simp at hx
    · simp [hx]
    · rcases hx with h | h <;> simp [h]
  have hsec2 : Call.JSON c ∉ (aroSecret env creds).2 := fun h => hsec _ h rfl
  simp only [aroLoop, aroManifests]
  split
  · simp [aroRole]
  · split
    · simp [aroRole, aroRoleBinding]
    · split
      · simp [aroRole, aroRoleBinding, hsec2]
      · simp [aroRole, aroRoleBinding, hsec2]

theorem aroLoop_length_of_ok (env : Externals) (creds : PlatformCreds)
    (cpc : CloudProviderConfig) (calls : List Call)
    (h : (aroLoop env creds (aroManifests env) cpc calls).err = none) :
    (aroLoop env creds (aroManifests env) cpc calls).cpc.FileList.length
      = cpc.FileList.length + 3 := by
  revert h
  simp only [aroLoop, aroManifests]
  split
  · simp
  · split
    · simp
    · split
      · simp
      · simp

theorem generate_idem (env : Externals) (cpc : CloudProviderConfig) (deps : Parents) :
    Generate env (Generate env cpc deps).cpc deps = Generate env cpc deps := by
  by_cases hplat : deps.installConfig.Config.PlatformName = env.azureName
  · cases hs : env.Session deps.installConfig with
    | error e => simp [Generate, hplat, hs]
    | ok session =>
      cases hj : env.JSON (azureConfigOf env deps.installConfig deps.clusterID session) with
      | error e => simp [Generate, hplat, hs, hj]
      | ok azureConfig =>
        cases hm : env.yamlMarshal
            (Object.ConfigMap (setConfig (emptyConfigMap env) azureConfig)) with
        | error e => simp [Generate, hplat, hs, hj, hm]
        | ok cmData =>
          rw [generate_of_marshalled env _ deps session azureConfig cmData hplat hs hj hm,
            generate_of_marshalled env cpc deps session azureConfig cmData hplat hs hj hm]
  · simp [generate_of_not_azure env _ deps hplat]

theorem generate_length_of_ok (env : Externals) (cpc : CloudProviderConfig) (deps : Parents)
    (h : (Generate env cpc deps).err = none) :
    (Generate env cpc deps).cpc.FileList.length = 1 ∨
      (Generate env cpc deps).cpc.FileList.length = 4 := by
  by_cases hplat : deps.installConfig.Config.PlatformName = env.azureName
  · cases hs : env.Session deps.installConfig with
    | error e => simp [Generate, hplat, hs] at h
    | ok session =>
      cases hj : env.JSON (azureConfigOf env deps.installConfig deps.clusterID session) with
      | error e => simp [Generate, hplat, hs, hj] at h
      | ok azureConfig =>
        cases hm : env.yamlMarshal
            (Object.ConfigMap (setConfig (emptyConfigMap env) azureConfig)) with
        | error e => simp [Generate, hplat, hs, hj, hm] at h
        | ok cmData =>
          rw [generate_of_marshalled env cpc deps session azureConfig cmData hplat hs hj hm]
            at h ⊢
          cases haro : deps.installConfig.Config.Azure.ARO
          · simp
          · rw [haro] at h
            simp only [if_true] at h ⊢
            right
            rw [aroLoop_length_of_ok env _ _ _ h]
            rfl
  · simp [generate_of_not_azure env _ deps hplat] at h

theorem aroLoop_two_creds (env : Externals) (c1 c2 : PlatformCreds) (cm : ConfigMap)
    (file : File) (calls : List Call) (b1 b2 : Bytes)
    (h1 : (aroSecret env c1).1 = .ok b1) (h2 : (aroSecret env c2).1 = .ok b2) :
    (aroLoop env c1 (aroManifests env) { ConfigMap := some cm, FileList := [file] } calls
        ).err =
      (aroLoop env c2 (aroManifests env) { ConfigMap := some cm, FileList := [file] } calls
        ).err ∧
    (aroLoop env c1 (aroManifests env) { ConfigMap := some cm, FileList := [file] } calls
        ).cpc.ConfigMap =
      (aroLoop env c2 (aroManifests env) { ConfigMap := some cm, FileList := [file] } calls
        ).cpc.ConfigMap ∧
    ((aroLoop env c1 (aroManifests env) { ConfigMap := some cm, FileList := [file] } calls
          ).cpc.FileList =
        (aroLoop env c2 (aroManifests env) { ConfigMap := some cm, FileList := [file] } calls
          ).cpc.FileList ∨
      ∃ common : List File, common.length = 3 ∧
        (aroLoop env c1 (aroManifests env) { ConfigMap := some cm, FileList := [file] } calls
          ).cpc.FileList =
            common ++ [{ Filename := aroCloudProviderSecretFileName env, Data := b1 }] ∧
        (aroLoop env c2 (aroManifests env) { ConfigMap := some cm, FileList := [file] } calls
          ).cpc.FileList =
            common ++ [{ Filename := aroCloudProviderSecretFileName env, Data := b2 }]) := by
  simp only [aroLoop, aroManifests]
  simp only [aroRole, aroRoleBinding]
  cases hrole : env.yamlMarshal (Object.Role aroRoleObject) with
  | error e => simp
  | ok roleData =>
    cases hbinding : env.yamlMarshal (Object.RoleBinding aroRoleBindingObject) with
    | error e => simp
    | ok bindingData =>
      rw [h1, h2]
      exact ⟨rfl, rfl, Or.inr ⟨[file,
        { Filename := aroCloudProviderRoleFileName env, Data := roleData },
        { Filename := aroCloudProviderRoleBindingFileName env, Data := bindingData }],
        rfl, rfl, rfl⟩⟩

theorem files_agree_of_secret_only (l1 l2 : List File) (name : String) (b1 b2 : Bytes)
    (h : l1 = l2 ∨ ∃ common : List File, common.length = 3 ∧
      l1 = common ++ [{ Filename := name, Data := b1 }] ∧
      l2 = common ++ [{ Filename := name, Data := b2 }]) :
    l1.length = l2.length ∧ l1.map File.Filename = l2.map File.Filename ∧
      l1.take 3 = l2.take 3 := by
  rcases h with h | ⟨common, hlen, e1, e2⟩
  · subst h
    exact ⟨rfl, rfl, rfl⟩
  · subst e1 e2
    simp [List.take_append_of_le_length, hlen]

theorem decNats_replicate (n acc : Nat) (rest : Bytes) :
    decNats (List.replicate n 1 ++ rest) acc = decNats rest (acc + n) := by
  induction n generalizing acc with
  | zero => simp
  | succ k ih =>
    have h : List.replicate (k + 1) (1 : UInt8) ++ rest = 1 :: (List.replicate k 1 ++ rest) :=
      rfl
    rw [h, decNats, if_neg (by decide), ih]
    congr 1
    omega

theorem decNats_encNats (ns : List Nat) : decNats (encNats ns) 0 = ns := by
  induction ns with
  | nil => rfl
  | cons n ns ih =>
    simp only [encNats, encNat, List.append_assoc, decNats_replicate]
    simp [decNats, ih]

theorem map_charOfNat_toNat (l : List Char) : l.map (Char.ofNat ∘ Char.toNat) = l := by
  induction l with
  | nil => rfl
  | cons c cs ih => simp [ih]

theorem uint8_ofNat_toNat (b : UInt8) : UInt8.ofNat b.toNat = b :=
  UInt8.toNat.inj (UInt8.toNat_ofNat_of_lt b.toNat_lt_size)

theorem map_uint8OfNat_toNat (l : List UInt8) : l.map (UInt8.ofNat ∘ UInt8.toNat) = l := by
  induction l with
  | nil => rfl
  | cons c cs ih => simp [ih, uint8_ofNat_toNat]

theorem takeString_encString (s : String) (rest : List Nat) :
    takeString (encString s ++ rest) = some (s, rest) := by
  simp [takeString, encString, List.take_append_of_le_length, List.drop_append_of_le_length,
    map_charOfNat_toNat]

theorem takeBytes_encBytes (b : Bytes) (rest : List Nat) :
    takeBytes (encBytes b ++ rest) = some (b, rest) := by
  simp [takeBytes, encBytes, List.take_append_of_le_length, List.drop_append_of_le_length,
    map_uint8OfNat_toNat]

theorem takeEntries_encEntries (d : List (String × Bytes)) (rest : List Nat) :
    takeEntries d.length (encEntries d ++ rest) = some (d, rest) := by
  induction d with
  | nil => rfl
  | cons e es ih =>
    obtain ⟨k, v⟩ := e
    simp [takeEntries, encEntries, List.append_assoc, takeString_encString,
      takeBytes_encBytes, ih]

theorem decodeConfig_codec (c : AroSecretConfig) :
    decodeConfig (encNats (encConfig c)) = some c := by
  have h := takeString_encString c.AADClientSecret []
  rw [List.append_nil] at h
  simp [decodeConfig, decNats_encNats, takeConfig, encConfig, takeString_encString, h]

theorem decodeSecret_codec (s : Secret) :
    decodeSecret (encNats (encSecret s)) = some s := by
  have h := takeString_encString s.Type_ []
  rw [List.append_nil] at h
  simp [decodeSecret, decNats_encNats, takeSecret, encSecret, takeString_encString,
    takeEntries_encEntries, h]

theorem generate_json_call_iff (env : Externals) (cpc : CloudProviderConfig) (deps : Parents)
    (session : Session)
    (hplat : deps.installConfig.Config.PlatformName = env.azureName)
    (hsess : env.Session deps.installConfig = .ok session) (c : AzureCloudProviderConfig) :
    Call.JSON c ∈ (Generate env cpc deps).calls ↔
      c = azureConfigOf env deps.installConfig deps.clusterID session := by
  cases hjson : env.JSON (azureConfigOf env deps.installConfig deps.clusterID session) with
  | error e =>
    simp only [Generate, hplat, hsess, hjson]
    simp [eq_comm]
  | ok azureConfig =>
    cases hcm : env.yamlMarshal
        (Object.ConfigMap (setConfig (emptyConfigMap env) azureConfig)) with
    | error e =>
      simp only [Generate, hplat, hsess, hjson, hcm]
      simp [eq_comm]
    | ok cmData =>
      rw [generate_of_marshalled env cpc deps session azureConfig cmData hplat hsess hjson hcm]
      split
      · rw [aroLoop_json_mem]
        simp [eq_comm]
      · simp [eq_comm]

/-! ## The claims -/

/-- C1: on an Azure input for which the session lookup and every
serialization succeed, `Generate` on a fresh node returns no error; when the
ARO flag is true `Files()` is exactly the config map, role, role binding and
secret entries in that order under their four fixed filenames; and the three
auxiliary filenames follow the first entry if and only if the ARO flag is
true. -/
theorem C1_managed_mode_four_files (env : Externals) (deps : Parents)
    (session : Session) (azureConfig : String)
    (cmData roleData bindingData secretData : Bytes)
    (hplat : deps.installConfig.Config.PlatformName = env.azureName)
    (hsess : env.Session deps.installConfig = .ok session)
    (hjson : env.JSON (azureConfigOf env deps.installConfig deps.clusterID session)
      = .ok azureConfig)
    (hcm : env.yamlMarshal (Object.ConfigMap (setConfig (emptyConfigMap env) azureConfig))
      = .ok cmData)
    (hrole : (aroRole env deps.platformCreds).1 = .ok roleData)
    (hbinding : (aroRoleBinding env deps.platformCreds).1 = .ok bindingData)
    (hsecret : (aroSecret env deps.platformCreds).1 = .ok secretData) :
    (Generate env CloudProviderConfig.fresh deps).err = none ∧
    (deps.installConfig.Config.Azure.ARO = true →
      Files (Generate env CloudProviderConfig.fresh deps).cpc =
        [{ Filename := cloudProviderConfigFileName env, Data := cmData },
         { Filename := aroCloudProviderRoleFileName env, Data := roleData },
         { Filename := aroCloudProviderRoleBindingFileName env, Data := bindingData },
         { Filename := aroCloudProviderSecretFileName env, Data := secretData }]) ∧
    ((Files (Generate env CloudProviderConfig.fresh deps).cpc).length = 4 ↔
      deps.installConfig.Config.Azure.ARO = true) ∧
    (((Files (Generate env CloudProviderConfig.fresh deps).cpc).map File.Filename).drop 1 =
        [aroCloudProviderRoleFileName env, aroCloudProviderRoleBindingFileName env,
         aroCloudProviderSecretFileName env] ↔
      deps.installConfig.Config.Azure.ARO = true) := by
  rw [generate_of_marshalled env _ deps session azureConfig cmData hplat hsess hjson hcm]
  cases haro : deps.installConfig.Config.Azure.ARO
  · simp [Files]
  · simp [Files, aroLoop_aroManifests_ok env deps.platformCreds _ _ roleData bindingData
      secretData hrole hbinding hsecret]

/-- C1 at a concrete managed-mode input: four files, in the fixed order. -/
theorem C1_managed_mode_four_files_witness :
    (Generate exampleEnv CloudProviderConfig.fresh (exampleParents true)).err = none ∧
    Files (Generate exampleEnv CloudProviderConfig.fresh (exampleParents true)).cpc =
      [{ Filename := "manifests/cloud-provider-config.yaml", Data := [1] },
       { Filename := "manifests/aro-cloud-provider-secret-reader-role.yaml", Data := [2] },
       { Filename := "manifests/aro-cloud-provider-secret-reader-rolebinding.yaml",
         Data := [3] },
       { Filename := "manifests/aro-cloud-provider-secret.yaml", Data := [4] }] := by
  have h := C1_managed_mode_four_files exampleEnv (exampleParents true)
    { Credentials := { SubscriptionID := "sub", TenantID := "tenant" } } "blob"
    [1] [2] [3] [4] rfl rfl rfl rfl rfl rfl rfl
  exact ⟨h.1, h.2.1 rfl⟩

/-- C2: every record `Generate` hands to the builder has its network resource
group, virtual network and subnet each equal to the configured override when
that is non-empty and otherwise to the value derived from the infra ID
(`ClusterResourceGroupName(infraID)`, `infraID-vnet`, `infraID-worker-subnet`);
and on an Azure input whose session lookup succeeds the builder is handed
such a record. -/
theorem C2_override_or_derive (env : Externals) (cpc : CloudProviderConfig) (deps : Parents) :
    (∀ config, Call.JSON config ∈ (Generate env cpc deps).calls →
      config.NetworkResourceGroupName =
        (if deps.installConfig.Config.Azure.NetworkResourceGroupName ≠ "" then
          deps.installConfig.Config.Azure.NetworkResourceGroupName
        else env.ClusterResourceGroupName deps.installConfig.Config.Azure
          deps.clusterID.InfraID) ∧
      config.VirtualNetworkName =
        (if deps.installConfig.Config.Azure.VirtualNetwork ≠ "" then
          deps.installConfig.Config.Azure.VirtualNetwork
        else deps.clusterID.InfraID ++ "-vnet") ∧
      config.SubnetName =
        (if deps.installConfig.Config.Azure.ComputeSubnet ≠ "" then
          deps.installConfig.Config.Azure.ComputeSubnet
        else deps.clusterID.InfraID ++ "-worker-subnet")) ∧
    (deps.installConfig.Config.PlatformName = env.azureName →
      ∀ session, env.Session deps.installConfig = .ok session →
        ∃ config, Call.JSON config ∈ (Generate env cpc deps).calls) := by
  constructor
  · intro config hmem
    by_cases hplat : deps.installConfig.Config.PlatformName = env.azureName
    · cases hsess : env.Session deps.installConfig with
      | error e => simp [Generate, hplat, hsess] at hmem
      | ok session =>
        rw [generate_json_call_iff env cpc deps session hplat hsess] at hmem
        subst hmem
        exact ⟨rfl, rfl, rfl⟩
    · simp [generate_of_not_azure env cpc deps hplat] at hmem
  · intro hplat session hsess
    exact ⟨_, (generate_json_call_iff env cpc deps session hplat hsess _).2 rfl⟩

/-- C2 at infra ID `abc123` with no overrides: the builder receives virtual
network `abc123-vnet` and subnet `abc123-worker-subnet`. -/
theorem C2_override_or_derive_witness :
    ∃ config, Call.JSON config ∈
        (Generate exampleEnv CloudProviderConfig.fresh (exampleParents false)).calls ∧
      config.NetworkResourceGroupName = "abc123-rg" ∧
      config.VirtualNetworkName = "abc123-vnet" ∧
      config.SubnetName = "abc123-worker-subnet" := by
  obtain ⟨h1, h2⟩ := C2_override_or_derive exampleEnv CloudProviderConfig.fresh
    (exampleParents false)
  obtain ⟨config, hmem⟩ := h2 rfl _ rfl
  obtain ⟨f1, f2, f3⟩ := h1 config hmem
  exact ⟨config, hmem, f1.trans (by decide), f2.trans (by decide), f3.trans (by decide)⟩

/-- C5: when the platform name is not the Azure platform name, `Generate` on
a fresh node returns the error `invalid Platform`, makes no call to the
session lookup, the builder or the serializer, and leaves `Files()` empty and
the stored ConfigMap unset. -/
theorem C5_unsupported_platform (env : Externals) (deps : Parents)
    (h : deps.installConfig.Config.PlatformName ≠ env.azureName) :
    (Generate env CloudProviderConfig.fresh deps).err = some (Error.New "invalid Platform") ∧
    (Generate env CloudProviderConfig.fresh deps).calls = [] ∧
    Files (Generate env CloudProviderConfig.fresh deps).cpc = [] ∧
    (Generate env CloudProviderConfig.fresh deps).cpc.ConfigMap = none := by
  rw [generate_of_not_azure env _ deps h]
  simp [Files, CloudProviderConfig.fresh]

/-- C5 at a concrete input whose platform name is `aws`. -/
theorem C5_unsupported_platform_witness :
    (Generate exampleEnv CloudProviderConfig.fresh exampleOtherPlatform).err =
      some (Error.New "invalid Platform") ∧
    (Generate exampleEnv CloudProviderConfig.fresh exampleOtherPlatform).calls = [] ∧
    Files (Generate exampleEnv CloudProviderConfig.fresh exampleOtherPlatform).cpc = [] ∧
    (Generate exampleEnv CloudProviderConfig.fresh exampleOtherPlatform).cpc.ConfigMap = none :=
  C5_unsupported_platform exampleEnv exampleOtherPlatform (by decide)

/-- C6: on an Azure input with the ARO flag false for which the session
lookup, the builder and the config-map serialization succeed, `Generate` on a
fresh node returns no error, `Files()` is the single entry
(`cloudProviderConfigFileName`, the serialization of the stored ConfigMap),
and the stored ConfigMap has Kind `ConfigMap`, namespace `openshift-config`,
name `cloud-provider-config` and the single data entry `config` holding the
blob the builder returned. -/
theorem C6_unmanaged_single_file (env : Externals) (deps : Parents)
    (session : Session) (azureConfig : String) (cmData : Bytes)
    (hplat : deps.installConfig.Config.PlatformName = env.azureName)
    (haro : deps.installConfig.Config.Azure.ARO = false)
    (hsess : env.Session deps.installConfig = .ok session)
    (hjson : env.JSON (azureConfigOf env deps.installConfig deps.clusterID session)
      = .ok azureConfig)
    (hcm : env.yamlMarshal (Object.ConfigMap (setConfig (emptyConfigMap env) azureConfig))
      = .ok cmData) :
    (Generate env CloudProviderConfig.fresh deps).err = none ∧
    Files (Generate env CloudProviderConfig.fresh deps).cpc =
      [{ Filename := cloudProviderConfigFileName env, Data := cmData }] ∧
    ∃ cm : ConfigMap,
      (Generate env CloudProviderConfig.fresh deps).cpc.ConfigMap = some cm ∧
      env.yamlMarshal (Object.ConfigMap cm) = .ok cmData ∧
      cm.TypeMeta.Kind = "ConfigMap" ∧
      cm.ObjectMeta.Namespace = "openshift-config" ∧
      cm.ObjectMeta.Name = "cloud-provider-config" ∧
      cm.Data = [("config", azureConfig)] := by
  rw [generate_of_marshalled env _ deps session azureConfig cmData hplat hsess hjson hcm]
  simp only [haro, Files]
  refine ⟨rfl, rfl, _, rfl, hcm, rfl, rfl, rfl, rfl⟩

/-- C6 at a concrete non-managed input: one file, the config map. -/
theorem C6_unmanaged_single_file_witness :
    (Generate exampleEnv CloudProviderConfig.fresh (exampleParents false)).err = none ∧
    Files (Generate exampleEnv CloudProviderConfig.fresh (exampleParents false)).cpc =
      [{ Filename := "manifests/cloud-provider-config.yaml", Data := [1] }] ∧
    ∃ cm : ConfigMap,
      (Generate exampleEnv CloudProviderConfig.fresh (exampleParents false)).cpc.ConfigMap
        = some cm ∧
      exampleEnv.yamlMarshal (Object.ConfigMap cm) = .ok [1] ∧
      cm.TypeMeta.Kind = "ConfigMap" ∧
      cm.ObjectMeta.Namespace = "openshift-config" ∧
      cm.ObjectMeta.Name = "cloud-provider-config" ∧
      cm.Data = [("config", "blob")] :=
  C6_unmanaged_single_file exampleEnv (exampleParents false)
    { Credentials := { SubscriptionID := "sub", TenantID := "tenant" } } "blob" [1]
    rfl rfl rfl rfl rfl

/-- C8: the Role of `aroRole` has exactly one rule, with the single verb
`get`, the single resource `secrets` and a single resource name equal to the
name of the Secret of `aroSecret` (`azure-cloud-provider`); the RoleBinding of
`aroRoleBinding` refers to a `Role` by that Role's name and has exactly one
subject, a ServiceAccount; Role, RoleBinding, subject and Secret all carry the
namespace `kube-system`; and these are the objects the three builders hand to
the serializer. -/
theorem C8_auxiliary_triple_consistent (env : Externals) (creds : PlatformCreds) (b : Bytes) :
    (∃ rule, aroRoleObject.Rules = [rule] ∧ rule.Verbs = ["get"] ∧
      rule.Resources = ["secrets"] ∧
      rule.ResourceNames = [(aroSecretObject env b).ObjectMeta.Name]) ∧
    (aroSecretObject env b).ObjectMeta.Name = "azure-cloud-provider" ∧
    aroRoleBindingObject.RoleRef.Kind = "Role" ∧
    aroRoleBindingObject.RoleRef.Name = aroRoleObject.ObjectMeta.Name ∧
    (∃ subject, aroRoleBindingObject.Subjects = [subject] ∧
      subject.Kind = "ServiceAccount" ∧ subject.Namespace = "kube-system") ∧
    aroRoleObject.ObjectMeta.Namespace = "kube-system" ∧
    aroRoleBindingObject.ObjectMeta.Namespace = "kube-system" ∧
    (aroSecretObject env b).ObjectMeta.Namespace = "kube-system" ∧
    aroRole env creds = (env.yamlMarshal (Object.Role aroRoleObject),
      [Call.Marshal (Object.Role aroRoleObject)]) ∧
    aroRoleBinding env creds = (env.yamlMarshal (Object.RoleBinding aroRoleBindingObject),
      [Call.Marshal (Object.RoleBinding aroRoleBindingObject)]) ∧
    (env.yamlMarshal (Object.AroSecretConfig (aroSecretConfig creds)) = .ok b →
      (aroSecret env creds).1 = env.yamlMarshal (Object.Secret (aroSecretObject env b))) := by
  refine ⟨⟨_, rfl, rfl, rfl, rfl⟩, rfl, rfl, rfl, ⟨_, rfl, rfl, rfl⟩, rfl, rfl, rfl, rfl, rfl, ?_⟩
  intro h
  simp [aroSecret, h]

/-- C8 at the concrete collaborators: the Secret marshalled by `aroSecret` is
the one named by the Role rule. -/
theorem C8_auxiliary_triple_consistent_witness :
    (aroSecret exampleEnv (exampleParents true).platformCreds).1 =
      exampleEnv.yamlMarshal (Object.Secret (aroSecretObject exampleEnv [5])) :=
  (C8_auxiliary_triple_consistent exampleEnv (exampleParents true).platformCreds [5]).2.2.2.2.2.2.2.2.2.2
    rfl

/-- C9: for every node state and every file fetcher, `Load` returns
`(false, nil)` and leaves the stored ConfigMap and the file list unchanged. -/
theorem C9_load_not_found (cpc : CloudProviderConfig) (f : FileFetcher) :
    (Load cpc f).1 = (false, none) ∧
    (Load cpc f).2.ConfigMap = cpc.ConfigMap ∧
    Files (Load cpc f).2 = Files cpc :=
  ⟨rfl, rfl, rfl⟩

/-- C3 fails as stated: with the ARO flag true and a serializer that rejects
the Role, `Generate` on a fresh node returns an error, yet `Files()` holds the
config-map entry and the stored ConfigMap is set. -/
theorem C3_counterexample :
    (Generate roleFailingEnv CloudProviderConfig.fresh (exampleParents true)).err =
      some (Error.Wrap (Error.External "cannot marshal")
        "failed to create Cloud Provider Config manifest") ∧
    Files (Generate roleFailingEnv CloudProviderConfig.fresh (exampleParents true)).cpc =
      [{ Filename := "manifests/cloud-provider-config.yaml", Data := [1] }] ∧
    (Generate roleFailingEnv CloudProviderConfig.fresh (exampleParents true)).cpc.ConfigMap =
      some (setConfig (emptyConfigMap roleFailingEnv) "blob") := by
  refine ⟨?_, rfl, rfl⟩
  decide

/-- C3, amended: when the platform is unsupported, or the session lookup
fails, or the builder fails, or the config-map serialization fails, `Generate`
on a fresh node returns an error and leaves `Files()` empty and the stored
ConfigMap unset. -/
theorem C3_early_failure_leaves_state_empty (env : Externals) (deps : Parents)
    (h : deps.installConfig.Config.PlatformName ≠ env.azureName ∨
      (∃ err, env.Session deps.installConfig = .error err) ∨
      (∃ session err, env.Session deps.installConfig = .ok session ∧
        env.JSON (azureConfigOf env deps.installConfig deps.clusterID session) = .error err) ∨
      (∃ session azureConfig err, env.Session deps.installConfig = .ok session ∧
        env.JSON (azureConfigOf env deps.installConfig deps.clusterID session)
          = .ok azureConfig ∧
        env.yamlMarshal (Object.ConfigMap (setConfig (emptyConfigMap env) azureConfig))
          = .error err)) :
    (Generate env CloudProviderConfig.fresh deps).err ≠ none ∧
    Files (Generate env CloudProviderConfig.fresh deps).cpc = [] ∧
    (Generate env CloudProviderConfig.fresh deps).cpc.ConfigMap = none := by
  by_cases hplat : deps.installConfig.Config.PlatformName = env.azureName
  · rcases h with h | ⟨err, hs⟩ | ⟨session, err, hs, hj⟩ | ⟨session, azureConfig, err, hs, hj, hm⟩
    · exact absurd hplat h
    · simp [Generate, hplat, hs, Files, CloudProviderConfig.fresh]
    · simp [Generate, hplat, hs, hj, Files, CloudProviderConfig.fresh]
    · simp [Generate, hplat, hs, hj, hm, Files, CloudProviderConfig.fresh]
  · rw [generate_of_not_azure env _ deps hplat]
    simp [Files, CloudProviderConfig.fresh]

/-- C3, amended, at a concrete input whose builder fails. -/
theorem C3_early_failure_leaves_state_empty_witness :
    (Generate builderFailingEnv CloudProviderConfig.fresh (exampleParents true)).err ≠ none ∧
    Files (Generate builderFailingEnv CloudProviderConfig.fresh (exampleParents true)).cpc
      = [] ∧
    (Generate builderFailingEnv CloudProviderConfig.fresh (exampleParents true)).cpc.ConfigMap
      = none :=
  C3_early_failure_leaves_state_empty builderFailingEnv (exampleParents true)
    (Or.inr (Or.inr (Or.inl
      ⟨{ Credentials := { SubscriptionID := "sub", TenantID := "tenant" } },
        Error.External "cannot build", rfl, rfl⟩)))

/-- C7: for every node state and every input, running `Generate` a second
time on the state left by the first returns the same error and leaves the same
stored ConfigMap and the same `Files()` as the first run alone (the external
calls repeat identically too); and whenever the second run succeeds its file
list has length 1 or 4, so nothing accumulates. -/
theorem C7_generate_idempotent (env : Externals) (cpc : CloudProviderConfig)
    (deps : Parents) :
    (Generate env (Generate env cpc deps).cpc deps).err = (Generate env cpc deps).err ∧
    (Generate env (Generate env cpc deps).cpc deps).cpc.ConfigMap =
      (Generate env cpc deps).cpc.ConfigMap ∧
    Files (Generate env (Generate env cpc deps).cpc deps).cpc =
      Files (Generate env cpc deps).cpc ∧
    ((Generate env (Generate env cpc deps).cpc deps).err = none →
      (Files (Generate env (Generate env cpc deps).cpc deps).cpc).length = 1 ∨
      (Files (Generate env (Generate env cpc deps).cpc deps).cpc).length = 4) := by
  rw [generate_idem]
  exact ⟨rfl, rfl, rfl, generate_length_of_ok env cpc deps⟩

/-- C7 at a concrete managed-mode input: after two runs the list still has
four entries. -/
theorem C7_generate_idempotent_witness :
    (Files (Generate exampleEnv
      (Generate exampleEnv CloudProviderConfig.fresh (exampleParents true)).cpc
      (exampleParents true)).cpc).length = 1 ∨
    (Files (Generate exampleEnv
      (Generate exampleEnv CloudProviderConfig.fresh (exampleParents true)).cpc
      (exampleParents true)).cpc).length = 4 :=
  (C7_generate_idempotent exampleEnv CloudProviderConfig.fresh (exampleParents true)).2.2.2
    (by decide)

/-- C10: take two runs of `Generate` from the same node state that differ
only in the PlatformCreds, with a serializer that accepts the secret of either
credential (`aroSecret` returns its manifest for both). The two runs return
the same error and leave the same stored ConfigMap; their file lists are
either identical or consist of the same three entries (config map, role, role
binding: filename and data) followed by a fourth entry under
`aroCloudProviderSecretFileName` whose data is the manifest `aroSecret`
returned for the respective credential. Hence the lists have the same length,
the same filenames and the same first three entries, and only the data of the
secret entry can differ. -/
theorem C10_credentials_confined (env : Externals) (cpc : CloudProviderConfig)
    (c1 c2 : PlatformCreds) (installConfig : InstallConfig) (clusterID : ClusterID)
    (b1 b2 : Bytes)
    (h1 : (aroSecret env c1).1 = .ok b1) (h2 : (aroSecret env c2).1 = .ok b2) :
    (Generate env cpc ⟨c1, installConfig, clusterID⟩).err =
      (Generate env cpc ⟨c2, installConfig, clusterID⟩).err ∧
    (Generate env cpc ⟨c1, installConfig, clusterID⟩).cpc.ConfigMap =
      (Generate env cpc ⟨c2, installConfig, clusterID⟩).cpc.ConfigMap ∧
    (Files (Generate env cpc ⟨c1, installConfig, clusterID⟩).cpc =
        Files (Generate env cpc ⟨c2, installConfig, clusterID⟩).cpc ∨
      ∃ common : List File, common.length = 3 ∧
        Files (Generate env cpc ⟨c1, installConfig, clusterID⟩).cpc =
          common ++ [{ Filename := aroCloudProviderSecretFileName env, Data := b1 }] ∧
        Files (Generate env cpc ⟨c2, installConfig, clusterID⟩).cpc =
          common ++ [{ Filename := aroCloudProviderSecretFileName env, Data := b2 }]) ∧
    (Files (Generate env cpc ⟨c1, installConfig, clusterID⟩).cpc).length =
      (Files (Generate env cpc ⟨c2, installConfig, clusterID⟩).cpc).length ∧
    (Files (Generate env cpc ⟨c1, installConfig, clusterID⟩).cpc).map File.Filename =
      (Files (Generate env cpc ⟨c2, installConfig, clusterID⟩).cpc).map File.Filename ∧
    (Files (Generate env cpc ⟨c1, installConfig, clusterID⟩).cpc).take 3 =
      (Files (Generate env cpc ⟨c2, installConfig, clusterID⟩).cpc).take 3 := by
  have key :
      (Generate env cpc ⟨c1, installConfig, clusterID⟩).err =
        (Generate env cpc ⟨c2, installConfig, clusterID⟩).err ∧
      (Generate env cpc ⟨c1, installConfig, clusterID⟩).cpc.ConfigMap =
        (Generate env cpc ⟨c2, installConfig, clusterID⟩).cpc.ConfigMap ∧
      (Files (Generate env cpc ⟨c1, installConfig, clusterID⟩).cpc =
          Files (Generate env cpc ⟨c2, installConfig, clusterID⟩).cpc ∨
        ∃ common : List File, common.length = 3 ∧
          Files (Generate env cpc ⟨c1, installConfig, clusterID⟩).cpc =
            common ++ [{ Filename := aroCloudProviderSecretFileName env, Data := b1 }] ∧
          Files (Generate env cpc ⟨c2, installConfig, clusterID⟩).cpc =
            common ++ [{ Filename := aroCloudProviderSecretFileName env, Data := b2 }]) := by
    by_cases hplat : installConfig.Config.PlatformName = env.azureName
    · cases hs : env.Session installConfig with
      | error e => simp [Generate, hplat, hs]
      | ok session =>
        cases hj : env.JSON (azureConfigOf env installConfig clusterID session) with
        | error e => simp [Generate, hplat, hs, hj]
        | ok azureConfig =>
          cases hm : env.yamlMarshal
              (Object.ConfigMap (setConfig (emptyConfigMap env) azureConfig)) with
          | error e => simp [Generate, hplat, hs, hj, hm]
          | ok cmData =>
            rw [generate_of_marshalled env cpc ⟨c1, installConfig, clusterID⟩ session
                azureConfig cmData hplat hs hj hm,
              generate_of_marshalled env cpc ⟨c2, installConfig, clusterID⟩ session
                azureConfig cmData hplat hs hj hm]
            cases haro : installConfig.Config.Azure.ARO
            · simp
            · simp only [if_true, Files]
              exact aroLoop_two_creds env c1 c2 _ _ _ b1 b2 h1 h2
    · simp [Generate, hplat]
  obtain ⟨he, hc, hf⟩ := key
  exact ⟨he, hc, hf, files_agree_of_secret_only _ _ _ b1 b2 hf⟩

/-- C10 with the reversible serializer, at credentials (`id`, `pw`) and
(`id2`, `pw2`): same error, same ConfigMap, same length, filenames and first
three entries. -/
theorem C10_credentials_confined_witness :
    (Generate codecEnv CloudProviderConfig.fresh (exampleParents true)).err =
      (Generate codecEnv CloudProviderConfig.fresh exampleParentsOtherCreds).err ∧
    (Generate codecEnv CloudProviderConfig.fresh (exampleParents true)).cpc.ConfigMap =
      (Generate codecEnv CloudProviderConfig.fresh exampleParentsOtherCreds).cpc.ConfigMap ∧
    (Files (Generate codecEnv CloudProviderConfig.fresh (exampleParents true)).cpc).length =
      (Files (Generate codecEnv CloudProviderConfig.fresh
        exampleParentsOtherCreds).cpc).length ∧
    (Files (Generate codecEnv CloudProviderConfig.fresh (exampleParents true)).cpc).map
        File.Filename =
      (Files (Generate codecEnv CloudProviderConfig.fresh
        exampleParentsOtherCreds).cpc).map File.Filename ∧
    (Files (Generate codecEnv CloudProviderConfig.fresh (exampleParents true)).cpc).take 3 =
      (Files (Generate codecEnv CloudProviderConfig.fresh
        exampleParentsOtherCreds).cpc).take 3 := by
  have h := C10_credentials_confined codecEnv CloudProviderConfig.fresh
    { Azure := { ClientID := "id", ClientSecret := "pw" } }
    { Azure := { ClientID := "id2", ClientSecret := "pw2" } }
    (exampleParents true).installConfig (exampleParents true).clusterID _ _ rfl rfl
  exact ⟨h.1, h.2.1, h.2.2.2⟩

/-- C4: given decoders that invert the serializer on Secrets and on the
inner record, the manifest returned by `aroSecret` decodes to a Secret whose
Data is the single entry `cloud-config`; the value of that entry is the
serialization of the inner record, and decoding it yields `aadClientId` equal
to the ClientID and `aadClientSecret` equal to the ClientSecret supplied. -/
theorem C4_secret_round_trip (env : Externals) (creds : PlatformCreds)
    (decSecret : Bytes → Option Secret) (decConfig : Bytes → Option AroSecretConfig)
    (hSecret : ∀ s b, env.yamlMarshal (Object.Secret s) = .ok b → decSecret b = some s)
    (hConfig : ∀ c b, env.yamlMarshal (Object.AroSecretConfig c) = .ok b →
      decConfig b = some c)
    (manifest : Bytes) (hm : (aroSecret env creds).1 = .ok manifest) :
    ∃ (secret : Secret) (inner : Bytes),
      decSecret manifest = some secret ∧
      secret.Data = [("cloud-config", inner)] ∧
      env.yamlMarshal (Object.AroSecretConfig (aroSecretConfig creds)) = .ok inner ∧
      decConfig inner = some
        { AADClientID := creds.Azure.ClientID, AADClientSecret := creds.Azure.ClientSecret } := by
  cases hc : env.yamlMarshal (Object.AroSecretConfig (aroSecretConfig creds)) with
  | error e => simp [aroSecret, hc] at hm
  | ok inner =>
    simp only [aroSecret, hc] at hm
    exact ⟨aroSecretObject env inner, inner, hSecret _ _ hm, rfl, rfl, hConfig _ _ hc⟩

/-- C4 with the reversible serializer, at client id `id` and secret `pw`:
the manifest decodes back to exactly those credentials. -/
theorem C4_secret_round_trip_witness :
    ∃ (secret : Secret) (inner : Bytes),
      decodeSecret (encNats (encSecret (aroSecretObject codecEnv
        (encNats (encConfig { AADClientID := "id", AADClientSecret := "pw" }))))) =
          some secret ∧
      secret.Data = [("cloud-config", inner)] ∧
      codecEnv.yamlMarshal (Object.AroSecretConfig
        (aroSecretConfig { Azure := { ClientID := "id", ClientSecret := "pw" } })) = .ok inner ∧
      decodeConfig inner = some { AADClientID := "id", AADClientSecret := "pw" } :=
  C4_secret_round_trip codecEnv { Azure := { ClientID := "id", ClientSecret := "pw" } }
    decodeSecret decodeConfig
    (fun s b h => by
      have hb : encNats (encSecret s) = b := by simpa [codecEnv, codecMarshal] using h
      rw [← hb]
      exact decodeSecret_codec s)
    (fun c b h => by
      have hb : encNats (encConfig c) = b := by simpa [codecEnv, codecMarshal] using h
      rw [← hb]
      exact decodeConfig_codec c)
    _ rfl

end manifests
